import Mathlib

/-!
Verification of the Mr Bear firmware (mr_bear.py / objects.py / main.py).

This file embeds, as pure Lean functions, the parts of the program the
claims talk about:

* `LED` brightness (mr_bear.py lines 26-39): the 0–255 level is clamped and
  converted to a 0–65535 PWM duty cycle by multiplying with 65535/255 = 257,
  and read back by dividing by 257.  All float arithmetic in the Python code
  is exact on this range (257.0 is exact, products stay below 2^53, and
  `int(duty / 257.0)` equals floor division by 257 for duty in [0, 65535]),
  so the Nat/Int model is faithful.
* `SDCard.ls_files` (mr_bear.py lines 96-103): extension-filtered directory
  listing over a snapshot of directory entries.
* `Audio.pulse_led` (mr_bear.py lines 134-138): brightness := rms_level * 2,
  written through the clamping setter.  Raw loudness samples are modelled as
  integers.
* `Button.pressed` (mr_bear.py lines 149-155): reads the pin (low = pressed);
  if pressed it sleeps the 0.2 s debounce and returns True, otherwise it
  returns False immediately.  Time is modelled in milliseconds; a call is
  timestamped by its start, and because the program is single threaded a
  second call starts no earlier than the first call returns.
* `AudioOut.play` from objects.py (lines 117-131): the playback session with
  an optional LED; the final `led.off()` on line 130 is executed
  unconditionally, so with `led=None` it raises AttributeError.
* `App.run` from mr_bear.py (lines 183-206): the wake / poll / deep-sleep
  cycle, modelled as the list of observable events it performs.  The audio
  device is modelled by a predicate `natural i` saying whether, absent a
  stop request, the device still reports `playing` at poll iteration `i`;
  `Audio.stop()` makes `playing` false from that point on, as the I2S
  hardware contract states.
-/

namespace MrBear

/-- Clamping used by the LED brightness setter (mr_bear.py line 38:
`level = max(0, min(level, 255))`). -/
def clampLevel (level : Int) : Int := max 0 (min level 255)

/-- The LED: only mutable state is the PWM duty cycle (0–65535). -/
structure LED where
  duty_cycle : Nat
  deriving DecidableEq, Repr

/-- Embedding of `LED._convert_brightness` (mr_bear.py line 28):
`int(value * (65535 / 255))`, i.e. multiplication by 257, on an already
clamped (hence nonnegative) level. -/
def LED.convert_brightness (value : Int) : Nat := (value * 257).toNat

/-- The `brightness` setter (mr_bear.py lines 35-39): clamp to [0, 255],
then store the converted duty cycle. -/
def LED.setBrightness (_led : LED) (level : Int) : LED :=
  ⟨LED.convert_brightness (clampLevel level)⟩

/-- The `brightness` getter (mr_bear.py lines 30-33):
`int(self.led.duty_cycle / (65535 / 255))`, i.e. floor division by 257. -/
def LED.getBrightness (led : LED) : Nat := led.duty_cycle / 257

/-- Embedding of `LED.off` (mr_bear.py lines 61-63): brightness := 0. -/
def LED.off (led : LED) : LED := led.setBrightness 0

/-- A directory entry as seen by `SDCard.ls_files`: whether it is a regular
file, its `Path.suffix` (extension including the dot), and its path. -/
structure Entry where
  isFile : Bool
  suffix : String
  name : String
  deriving DecidableEq, Repr

/-- Embedding of `SDCard.ls_files` (mr_bear.py lines 96-103) over a snapshot of the
folder's entries: with no extension keep the files, with extension `e` keep
the files whose suffix equals `e`. -/
def SDCard.ls_files (entries : List Entry) (ext : Option String) : List Entry :=
  match ext with
  | none => entries.filter (fun f => f.isFile)
  | some e => entries.filter (fun f => f.isFile && f.suffix == e)

/-- Embedding of `Audio.pulse_led` (mr_bear.py lines 134-138): `level = rms_level * 2`
written through the clamping brightness setter. -/
def Audio.pulse_led (rms_level : Int) (led : LED) : LED :=
  led.setBrightness (rms_level * 2)

/-- The debounce interval in milliseconds (`debounce: float = 0.2`,
mr_bear.py line 144). -/
def debounceMs : Nat := 200

/-- One call of the `Button.pressed` property (mr_bear.py lines 149-155),
started at time `t` ms with the pin reading low (= pressed) given by `low`:
if low, sleep the debounce interval and return True (so the call returns at
`t + debounceMs`); otherwise return False immediately.  Result: the boolean
returned and the time at which the call returns. -/
def Button.pressedCall (low : Bool) (t : Nat) : Bool × Nat :=
  if low then (true, t + debounceMs) else (false, t)

/-- Python exceptions that the modelled code can raise. -/
inductive PyError where
  | attributeError
  deriving DecidableEq, Repr

/-- One iteration of the loudness loop body in `AudioOut.play` (objects.py
lines 125-129): `if led: led.brightness = wave.rms_level * 3`.  A missing
LED is passed through untouched. -/
def pulseStep (acc : Option LED) (v : Int) : Option LED :=
  match acc with
  | some l => some (l.setBrightness (v * 3))
  | none => none

/-- The guarded `if led: led.off()` at the start of `AudioOut.play`
(objects.py lines 123-124). -/
def ledOffStart (led : Option LED) : Option LED :=
  match led with
  | some l => some l.off
  | none => none

/-- Embedding of `AudioOut.play` from objects.py (lines 117-131), abstracting the device
to the list of rms samples observed while `audio.playing` held: guarded
`led.off()`, then one brightness write per poll while playing, then the
UNGUARDED `led.off()` on line 130 — which raises AttributeError when the
session was started with `led=None`. -/
def AudioOut.play (samples : List Int) (led : Option LED) : Except PyError (Option LED) :=
  match samples.foldl pulseStep (ledOffStart led) with
  | some l => Except.ok (some l.off)
  | none => Except.error PyError.attributeError

/-- Observable events of one `App.run` wake-to-sleep cycle
(mr_bear.py lines 183-206), in program order. -/
inductive Event where
  | selectTrack (f : Entry)
  | playCall (f : Entry)
  | checkButtons (l r : Bool)
  | stopCall
  | loudnessSample (v : Int)
  | brightnessWrite (b : Int)
  | ledOff
  | deinitLeft
  | deinitRight
  | armAlarm (leftPin : Bool) (value : Bool) (pull : Bool)
  | deepSleep
  deriving DecidableEq, Repr

/-- The environment of one run: `natural i` is whether the audio device,
absent a stop request, still reports `playing` at poll iteration `i`;
`leftLow i` / `rightLow i` are the debounced pressed readings of the two
buttons at iteration `i`; `loud i` is the decoder's rms level there. -/
structure DeviceInput where
  natural : Nat → Bool
  leftLow : Nat → Bool
  rightLow : Nat → Bool
  loud : Nat → Int

/-- Errors that can escape `App.run`; `random.choice` of an empty sequence
raises IndexError, and `run` has no handler for it. -/
inductive AppError where
  | indexError
  deriving DecidableEq, Repr

/-- Embedding of `random.choice(seq)`: returns `seq[k]` for some index
`k < len(seq)` (the random draw is modelled by the parameter `i`, reduced
mod the length); on an empty sequence it raises IndexError. -/
def randomChoice (l : List Entry) (i : Nat) : Except AppError Entry :=
  match l with
  | [] => Except.error AppError.indexError
  | x :: xs =>
    Except.ok ((x :: xs).get ⟨i % (x :: xs).length, Nat.mod_lt _ (Nat.succ_pos _)⟩)

/-- The poll loop of `App.run` (mr_bear.py lines 191-197), at iteration `i`
with at most `fuel` further iterations modelled.  Per iteration: the loop
condition `audio.playing` is checked (not stopped, and `natural i`); both
buttons are read; if either reports pressed, `audio.stop()` is called —
after which `audio.playing` is false, so the guarded `pulse_led` is skipped
and the next loop-condition check exits; otherwise the decoder loudness is
sampled and the scaled, clamped brightness is written (`Audio.pulse_led`).
Returns the events and whether the loop exited through its condition
(`false` means the fuel ran out while the device kept playing). -/
def appLoop (inp : DeviceInput) : Nat → Nat → List Event × Bool
  | _, 0 => ([], false)
  | i, fuel + 1 =>
    if inp.natural i then
      if inp.leftLow i || inp.rightLow i then
        ([Event.checkButtons (inp.leftLow i) (inp.rightLow i), Event.stopCall], true)
      else
        let r := appLoop inp (i + 1) fuel
        (Event.checkButtons (inp.leftLow i) (inp.rightLow i) ::
          Event.loudnessSample (inp.loud i) ::
          Event.brightnessWrite (clampLevel (inp.loud i * 2)) :: r.1, r.2)
    else ([], true)

/-- The exit path of `App.run` once `audio.playing` is false (mr_bear.py
lines 198-206): LED off, deinit both button inputs, arm a PinAlarm on each
button pin with `value=False` (wake on low level) and `pull=True`, then
`exit_and_deep_sleep_until_alarms` — which never returns, so `deepSleep` is
the final event of every completed run. -/
def exitEvents : List Event :=
  [Event.ledOff, Event.deinitLeft, Event.deinitRight,
   Event.armAlarm true false true, Event.armAlarm false false true,
   Event.deepSleep]

/-- Embedding of `App.run` (mr_bear.py lines 183-206).  `wakeAlarm` is the
truthiness of `alarm.wake_alarm`; `rootEntries` is the snapshot of the
folder listed by `self.sdcard.ls_files("", ".mp3")` — the SD root, the same
folder whichever button caused the wake; `choiceIdx` models the random
draw.  On a wake, `random.choice` picks a track from the filtered listing
(raising IndexError on an empty one, with no handler in `run`) and
`audio.play` starts it, after which the poll loop runs.  Without a wake
alarm nothing is ever played, `audio.playing` is false at the first check,
and control goes straight to the exit path. -/
def App.run (wakeAlarm : Bool) (rootEntries : List Entry) (choiceIdx : Nat)
    (inp : DeviceInput) (fuel : Nat) : Except AppError (List Event) :=
  if wakeAlarm then
    match randomChoice (SDCard.ls_files rootEntries (some ".mp3")) choiceIdx with
    | Except.error e => Except.error e
    | Except.ok f =>
      let r := appLoop inp 0 fuel
      Except.ok (Event.selectTrack f :: Event.playCall f ::
        (r.1 ++ if r.2 then exitEvents else []))
  else
    Except.ok exitEvents

/-- Recognizer for loudness-sample events. -/
def isSample : Event → Bool
  | Event.loudnessSample _ => true
  | _ => false

/-- Recognizer for loudness-driven brightness-write events. -/
def isWrite : Event → Bool
  | Event.brightnessWrite _ => true
  | _ => false

/-- Recognizer for `audio.play` events. -/
def isPlay : Event → Bool
  | Event.playCall _ => true
  | _ => false

/-- Recognizer for track-selection events. -/
def isSelect : Event → Bool
  | Event.selectTrack _ => true
  | _ => false

/-- The events strictly after the first `stopCall` of a trace
(`[]` when the trace has no stop). -/
def afterStop : List Event → List Event
  | [] => []
  | Event.stopCall :: rest => rest
  | _ :: rest => afterStop rest

/-- The trace of `n` uninterrupted poll iterations starting at iteration
`i`: per iteration one button check, one loudness sample, and one clamped
brightness write. -/
def loopList (inp : DeviceInput) : Nat → Nat → List Event
  | 0, _ => []
  | n + 1, i =>
    Event.checkButtons (inp.leftLow i) (inp.rightLow i) ::
    Event.loudnessSample (inp.loud i) ::
    Event.brightnessWrite (clampLevel (inp.loud i * 2)) :: loopList inp n (i + 1)

/-- A quiet environment: device never playing, no presses.  Used for
concrete instantiations. -/
def inp0 : DeviceInput := ⟨fun _ => false, fun _ => false, fun _ => false, fun _ => 0⟩

/-- Scenario B environment: the device reports playing for exactly 3 poll
cycles, no button press, constant loudness 100. -/
def inpB : DeviceInput :=
  ⟨fun i => decide (i < 3), fun _ => false, fun _ => false, fun _ => 100⟩

/-- Scenario C environment: the device keeps playing until stopped, and the
right button's debounced poll reports pressed at poll cycle 1. -/
def inpC : DeviceInput :=
  ⟨fun _ => true, fun _ => false, fun i => decide (i = 1), fun _ => 7⟩

/-- A concrete .mp3 directory entry. -/
def mp3a : Entry := ⟨true, ".mp3", "/sd/a.mp3"⟩

/-- A concrete non-mp3 directory entry. -/
def txtb : Entry := ⟨true, ".txt", "/sd/b.txt"⟩

end MrBear

namespace MrBear

/-- Helper: setting the brightness then reading it back yields the clamp of
the requested level (the duty-cycle conversion by 257 and floor division by
257 cancel). -/
theorem setBrightness_getBrightness (led : LED) (level : Int) :
    ((led.setBrightness level).getBrightness : Int) = clampLevel level := by
  have hc0 : 0 ≤ clampLevel level := le_max_left _ _
  unfold LED.setBrightness LED.getBrightness LED.convert_brightness
  have h257 : (clampLevel level * 257).toNat = (clampLevel level).toNat * 257 := by
    omega
  rw [h257, Nat.mul_div_cancel _ (by norm_num : (0:ℕ) < 257)]
  omega

/-- Claim C9: reading the LED brightness right after setting it returns the
clamp of the requested level to [0, 255]; on levels already in [0, 255] the
0–255 → 0–65535 conversion and its inverse compose to the identity. -/
theorem led_brightness_roundtrip (led : LED) (level : Int) :
    (((led.setBrightness level).getBrightness : Int) = clampLevel level) ∧
    (0 ≤ level → level ≤ 255 → ((led.setBrightness level).getBrightness : Int) = level) := by
  have hmain := setBrightness_getBrightness led level
  refine ⟨hmain, fun h0 h255 => ?_⟩
  have hcl : clampLevel level = level := by
    unfold clampLevel
    omega
  rw [hmain, hcl]

/-- Witness for C9 at level 254 (in range) and the clamp at 300. -/
theorem led_brightness_roundtrip_witness :
    ((((⟨0⟩ : LED).setBrightness 254).getBrightness : Int) = 254) ∧
    ((((⟨0⟩ : LED).setBrightness 300).getBrightness : Int) = clampLevel 300) :=
  ⟨(led_brightness_roundtrip ⟨0⟩ 254).2 (by decide) (by decide),
   (led_brightness_roundtrip ⟨0⟩ 300).1⟩

/-- Claim C3: for every raw loudness sample L, the brightness written by
`Audio.pulse_led` equals clamp(L * 2, 0, 255) (the multiplier is the fixed
constant 2); it is never negative and never exceeds 255, the setter clamping
out-of-range products silently (it is a total function, not an error). -/
theorem pulse_led_clamps (led : LED) (L : Int) :
    (((Audio.pulse_led L led).getBrightness : Int) = clampLevel (L * 2)) ∧
    (0 ≤ ((Audio.pulse_led L led).getBrightness : Int)) ∧
    (((Audio.pulse_led L led).getBrightness : Int) ≤ 255) := by
  have h := setBrightness_getBrightness led (L * 2)
  unfold Audio.pulse_led
  refine ⟨h, ?_, ?_⟩ <;> rw [h] <;> unfold clampLevel <;> omega


/-- Claim C4: the file-listing operation used before random selection
(`SDCard.ls_files` in mr_bear.py) returns, for every folder snapshot and
every extension filter, exactly the entries that are files and whose
extension equals the filter: no non-matching entry is included and no
matching one is omitted. -/
theorem ls_files_exact (entries : List Entry) (e : String) (f : Entry) :
    f ∈ SDCard.ls_files entries (some e) ↔
      (f ∈ entries ∧ f.isFile = true ∧ f.suffix = e) := by
  unfold SDCard.ls_files
  simp [List.mem_filter, and_assoc]

/-- Claim C8: two calls of a button's debounced `pressed` property whose
start times differ by less than the 200 ms debounce window never both
return true (a true-returning call sleeps the whole window before
returning, and the single-threaded program cannot start the second call
before the first returns); calls separated by more than the window may both
return true. -/
theorem button_debounce_window :
    (∀ (low1 low2 : Bool) (t1 t2 : Nat),
        (Button.pressedCall low1 t1).2 ≤ t2 →
        t2 < t1 + debounceMs →
        ¬((Button.pressedCall low1 t1).1 = true ∧
          (Button.pressedCall low2 t2).1 = true)) ∧
    ((Button.pressedCall true 0).1 = true ∧ (Button.pressedCall true 300).1 = true ∧
      (Button.pressedCall true 0).2 ≤ 300 ∧ 0 + debounceMs < 300) := by
  constructor
  · intro low1 low2 t1 t2 hseq hlt hboth
    rcases hboth with ⟨h1, h2⟩
    unfold Button.pressedCall at h1 hseq
    cases low1 with
    | false => simp at h1
    | true =>
      simp at hseq
      unfold debounceMs at hseq hlt
      omega
  · decide

/-- Witness for C8: a concrete pair of sequential calls closer than the
window (the first read the pin high, so it returned false). -/
theorem button_debounce_window_witness :
    ¬((Button.pressedCall false 0).1 = true ∧
      (Button.pressedCall true 100).1 = true) :=
  button_debounce_window.1 false true 0 100 (by decide) (by decide)

/-- The loudness loop of `AudioOut.play` never loses a bound LED: folding
`pulseStep` from `some l` stays `some`. -/
theorem foldl_pulseStep_some (samples : List Int) :
    ∀ (l : LED), ∃ l2, samples.foldl pulseStep (some l) = some l2 := by
  induction samples with
  | nil => intro l; exact ⟨l, rfl⟩
  | cons v vs ih =>
    intro l
    simpa [pulseStep] using ih (l.setBrightness (v * 3))

/-- Claim C1 (code bug): with `led=None`, `AudioOut.play` raises
AttributeError at the final unguarded `led.off()` (objects.py line 130)
instead of ending harmlessly — the turn-off step is NOT safe on the
missing-LED path; with an LED bound, every normal exit does end with
brightness exactly 0. -/
theorem audioout_play_none_raises :
    (AudioOut.play [5, 300, -2] none = Except.error PyError.attributeError) ∧
    (∀ (samples : List Int) (led : LED), ∃ l2,
        AudioOut.play samples (some led) = Except.ok (some l2.off) ∧
        LED.getBrightness (LED.off l2) = 0) := by
  constructor
  · rfl
  · intro samples led
    obtain ⟨l2, h⟩ := foldl_pulseStep_some samples led.off
    refine ⟨l2, ?_, ?_⟩
    · unfold AudioOut.play ledOffStart
      rw [h]
    · have h0 := setBrightness_getBrightness l2 0
      have hcl : clampLevel 0 = 0 := by decide
      rw [hcl] at h0
      unfold LED.off
      omega

/-- Helper: `afterStop` skips a leading non-stop event. -/
theorem afterStop_cons_ne (e : Event) (l : List Event) (h : e ≠ Event.stopCall) :
    afterStop (e :: l) = afterStop l := by
  cases e
  all_goals first
    | exact absurd rfl h
    | simp [afterStop]

/-- Helper: `afterStop` distributes over append when the prefix contains a
stop. -/
theorem afterStop_append_of_mem (l1 l2 : List Event) (h : Event.stopCall ∈ l1) :
    afterStop (l1 ++ l2) = afterStop l1 ++ l2 := by
  induction l1 with
  | nil => cases h
  | cons e t ih =>
    by_cases he : e = Event.stopCall
    · subst he; simp [afterStop]
    · rw [List.cons_append, afterStop_cons_ne e _ he, afterStop_cons_ne e _ he]
      refine ih ?_
      rcases List.mem_cons.mp h with h1 | h1
      · exact absurd h1.symm he
      · exact h1

/-- Helper: `afterStop` ignores a stop-free prefix. -/
theorem afterStop_append_of_not_mem (l1 l2 : List Event) (h : Event.stopCall ∉ l1) :
    afterStop (l1 ++ l2) = afterStop l2 := by
  induction l1 with
  | nil => rfl
  | cons e t ih =>
    have he : e ≠ Event.stopCall := fun hh => h (hh ▸ List.mem_cons_self e t)
    rw [List.cons_append, afterStop_cons_ne e _ he]
    exact ih (fun hh => h (List.mem_cons_of_mem e hh))

/-- Helper: the poll loop emits nothing after a stop request — `stopCall`,
when present, is the last event of the loop trace. -/
theorem afterStop_appLoop (inp : DeviceInput) :
    ∀ (fuel i : Nat), afterStop (appLoop inp i fuel).1 = [] := by
  intro fuel
  induction fuel with
  | zero => intro i; rfl
  | succ fuel ih =>
    intro i
    by_cases hn : inp.natural i = true
    · by_cases hp : (inp.leftLow i || inp.rightLow i) = true
      · simp [appLoop, hn, hp, afterStop]
      · simp [appLoop, hn, hp, afterStop, ih (i + 1)]
    · simp [appLoop, hn, afterStop]

/-- Helper: the poll loop never calls `audio.play`. -/
theorem appLoop_countP_isPlay (inp : DeviceInput) :
    ∀ (fuel i : Nat), ((appLoop inp i fuel).1).countP isPlay = 0 := by
  intro fuel
  induction fuel with
  | zero => intro i; rfl
  | succ fuel ih =>
    intro i
    by_cases hn : inp.natural i = true
    · by_cases hp : (inp.leftLow i || inp.rightLow i) = true
      · simp [appLoop, hn, hp, List.countP_cons, isPlay]
      · simp [appLoop, hn, hp, List.countP_cons, isPlay, ih (i + 1)]
    · simp [appLoop, hn]

/-- Helper: with no press and the device playing for exactly the first `N`
iterations, the loop from iteration `i` runs its remaining `N - i`
iterations and exits through the loop condition. -/
theorem appLoop_noPress (inp : DeviceInput) (N : Nat)
    (hl : ∀ j, inp.leftLow j = false) (hr : ∀ j, inp.rightLow j = false)
    (hnat : ∀ j, inp.natural j = decide (j < N)) :
    ∀ (fuel i : Nat), N - i < fuel →
      appLoop inp i fuel = (loopList inp (N - i) i, true) := by
  intro fuel
  induction fuel with
  | zero => intro i h; omega
  | succ fuel ih =>
    intro i h
    by_cases hi : i < N
    · have hn : inp.natural i = true := by rw [hnat]; simpa using hi
      have hstep : N - i = (N - (i + 1)) + 1 := by omega
      have ihh := ih (i + 1) (by omega)
      rw [hstep]
      simp [appLoop, hn, hl, hr, ihh, loopList]
    · have hn : inp.natural i = false := by rw [hnat]; simpa using hi
      have h0 : N - i = 0 := by omega
      rw [h0]
      simp [appLoop, hn, loopList]

/-- Helper: an `n`-iteration uninterrupted loop trace contains exactly `n`
brightness writes. -/
theorem loopList_countP_isWrite (inp : DeviceInput) :
    ∀ (n i : Nat), (loopList inp n i).countP isWrite = n := by
  intro n
  induction n with
  | zero => intro i; rfl
  | succ n ih => intro i; simp [loopList, List.countP_cons, isWrite, ih (i + 1)]

/-- Claim C10: on a cold boot (no wake alarm) the converged `App.run`
starts no playback at all: the trace contains no track selection, no
`audio.play`, no loudness sample and no brightness update — it goes
directly to LED-off, button deinit, wake-alarm arming and deep sleep. -/
theorem cold_boot_no_playback (re : List Entry) (ci : Nat) (inp : DeviceInput)
    (fuel : Nat) :
    App.run false re ci inp fuel = Except.ok exitEvents ∧
    exitEvents.countP isSelect = 0 ∧ exitEvents.countP isPlay = 0 ∧
    exitEvents.countP isSample = 0 ∧ exitEvents.countP isWrite = 0 := by
  exact ⟨rfl, by decide, by decide, by decide, by decide⟩

/-- Claim C7: at most one track is ever bound to the audio device in one
wake-to-sleep cycle: every successful trace contains at most one
`audio.play` call, and the poll loop itself never issues one (a press leads
to `stopCall`, never to a second `play`). -/
theorem at_most_one_play :
    (∀ (wa : Bool) (re : List Entry) (ci : Nat) (inp : DeviceInput) (fuel : Nat)
        (evs : List Event), App.run wa re ci inp fuel = Except.ok evs →
        evs.countP isPlay ≤ 1) ∧
    (∀ (inp : DeviceInput) (i fuel : Nat),
        ((appLoop inp i fuel).1).countP isPlay = 0) := by
  constructor
  · intro wa re ci inp fuel evs h
    cases wa with
    | false =>
      simp only [App.run, Bool.false_eq_true, if_false, Except.ok.injEq] at h
      subst h
      decide
    | true =>
      simp only [App.run, if_true] at h
      cases hc : randomChoice (SDCard.ls_files re (some ".mp3")) ci with
      | error e => rw [hc] at h; simp at h
      | ok f =>
        rw [hc] at h
        simp only [Except.ok.injEq] at h
        subst h
        simp [List.countP_cons, List.countP_append, isPlay,
          appLoop_countP_isPlay inp fuel 0]
        cases hdone : (appLoop inp 0 fuel).2
        · simp [hdone]
        · simp [hdone]
          decide
  · intro inp i fuel
    exact appLoop_countP_isPlay inp fuel i

/-- Witness for C7: the cold-boot trace contains at most one play call. -/
theorem at_most_one_play_witness : exitEvents.countP isPlay ≤ 1 :=
  at_most_one_play.1 false [] 0 inp0 0 exitEvents rfl

/-- Claim C2 (amended): on a wake the controller selects a member of the
extension-filtered (.mp3) listing of the fixed SD root folder — the same
folder whichever button caused the wake; when that filtered listing is
empty, `random.choice` raises IndexError, which escapes `run` unhandled, so
no playback starts but no recoverable TrackSelectionEmpty error is
produced. -/
theorem track_selection_member_or_crash :
    (∀ (re : List Entry) (ci : Nat) (f : Entry),
        randomChoice (SDCard.ls_files re (some ".mp3")) ci = Except.ok f →
        f ∈ SDCard.ls_files re (some ".mp3")) ∧
    (∀ (re : List Entry) (ci : Nat) (inp : DeviceInput) (fuel : Nat),
        SDCard.ls_files re (some ".mp3") = [] →
        App.run true re ci inp fuel = Except.error AppError.indexError) := by
  constructor
  · intro re ci f h
    cases hls : SDCard.ls_files re (some ".mp3") with
    | nil => rw [hls] at h; exact absurd h (by simp [randomChoice])
    | cons x xs =>
      rw [hls] at h
      unfold randomChoice at h
      injection h with h1
      rw [← h1]
      exact List.get_mem _ _ _
  · intro re ci inp fuel h
    simp [App.run, h, randomChoice]

/-- Counterexample for claim C2 as stated: with the root folder holding only
a .txt file, the .mp3-filtered listing is empty and the woken run aborts
with the unhandled IndexError of `random.choice` — it does not yield a
recoverable, logged TrackSelectionEmpty and never reaches the sleep path. -/
theorem track_selection_empty_crash :
    SDCard.ls_files [txtb] (some ".mp3") = [] ∧
    App.run true [txtb] 0 inp0 5 = Except.error AppError.indexError := by
  constructor <;> rfl

/-- Witness for C2 (amended): with root {a.mp3, b.txt} the selection picks
a.mp3, a member of the filtered listing; with root {b.txt} the run raises
IndexError. -/
theorem track_selection_member_witness :
    mp3a ∈ SDCard.ls_files [mp3a, txtb] (some ".mp3") ∧
    App.run true [txtb] 1 inpC 2 = Except.error AppError.indexError :=
  ⟨track_selection_member_or_crash.1 [mp3a, txtb] 0 mp3a rfl,
   track_selection_member_or_crash.2 [txtb] 1 inpC 2 rfl⟩

/-- Claim C5: while the device is playing, each poll iteration reads both
buttons, and if either reports pressed that iteration calls `audio.stop()`
and performs no loudness sample and no brightness write; moreover in every
successful full-run trace, nothing after the stop request is a loudness
sample or a loudness-driven brightness write. -/
theorem stop_on_press_no_sample_after (inp : DeviceInput) :
    (∀ i fuel, inp.natural i = true →
        (inp.leftLow i || inp.rightLow i) = true →
        appLoop inp i (fuel + 1) =
          ([Event.checkButtons (inp.leftLow i) (inp.rightLow i),
            Event.stopCall], true)) ∧
    (∀ i fuel, inp.natural i = true →
        ∃ rest, (appLoop inp i (fuel + 1)).1 =
          Event.checkButtons (inp.leftLow i) (inp.rightLow i) :: rest) ∧
    (∀ (wa : Bool) (re : List Entry) (ci fuel : Nat) (evs : List Event),
        App.run wa re ci inp fuel = Except.ok evs →
        ∀ e ∈ afterStop evs, isSample e = false ∧ isWrite e = false) := by
  refine ⟨?_, ?_, ?_⟩
  · intro i fuel hn hp
    simp [appLoop, hn, hp]
  · intro i fuel hn
    by_cases hp : (inp.leftLow i || inp.rightLow i) = true
    · exact ⟨[Event.stopCall], by simp [appLoop, hn, hp]⟩
    · exact ⟨Event.loudnessSample (inp.loud i) ::
        Event.brightnessWrite (clampLevel (inp.loud i * 2)) ::
        (appLoop inp (i + 1) fuel).1, by simp [appLoop, hn, hp]⟩
  · intro wa re ci fuel evs h
    cases wa with
    | false =>
      simp only [App.run, Bool.false_eq_true, if_false, Except.ok.injEq] at h
      subst h
      intro e he
      simp [afterStop, exitEvents] at he
    | true =>
      simp only [App.run, if_true] at h
      cases hc : randomChoice (SDCard.ls_files re (some ".mp3")) ci with
      | error e => rw [hc] at h; simp at h
      | ok f =>
        rw [hc] at h
        simp only [Except.ok.injEq] at h
        subst h
        rw [afterStop_cons_ne _ _ (by simp), afterStop_cons_ne _ _ (by simp)]
        by_cases hm : Event.stopCall ∈ (appLoop inp 0 fuel).1
        · rw [afterStop_append_of_mem _ _ hm, afterStop_appLoop inp fuel 0]
          intro e he
          simp only [List.nil_append] at he
          cases hdone : (appLoop inp 0 fuel).2
          · rw [hdone] at he; simp at he
          · rw [hdone] at he
            simp only [if_true] at he
            revert he
            revert e
            decide
        · rw [afterStop_append_of_not_mem _ _ hm]
          intro e he
          cases hdone : (appLoop inp 0 fuel).2
          · rw [hdone] at he; simp [afterStop] at he
          · rw [hdone] at he
            simp only [if_true] at he
            revert he
            revert e
            decide

/-- Witness for C5, realizing scenario C: the device keeps playing, the
right button reports pressed at poll cycle 1; that iteration is a button
check followed by `stop()`, and in the full trace everything after the stop
is the exit path (no loudness sample, no brightness write). -/
theorem stop_on_press_witness :
    appLoop inpC 1 4 =
      ([Event.checkButtons false true, Event.stopCall], true) ∧
    (∀ e ∈ afterStop
        [Event.selectTrack mp3a, Event.playCall mp3a,
         Event.checkButtons false false, Event.loudnessSample 7,
         Event.brightnessWrite 14, Event.checkButtons false true,
         Event.stopCall, Event.ledOff, Event.deinitLeft, Event.deinitRight,
         Event.armAlarm true false true, Event.armAlarm false false true,
         Event.deepSleep],
      isSample e = false ∧ isWrite e = false) :=
  ⟨(stop_on_press_no_sample_after inpC).1 1 3 rfl rfl,
   (stop_on_press_no_sample_after inpC).2.2 true [mp3a] 0 3 _ rfl⟩

/-- Claim C6: a woken run whose device reports playing for exactly `N`
uninterrupted poll cycles performs exactly `N` loudness-driven brightness
updates and then, in order: LED off, deinit of the left and right button
inputs, arming of a low-level (`value=False`) pull-enabled PinAlarm on each
button pin, and finally deep sleep — the last event of the trace, since the
deep-sleep call never returns. -/
theorem session_end_sequence (re : List Entry) (ci : Nat) (inp : DeviceInput)
    (fuel N : Nat) (f : Entry)
    (hl : ∀ j, inp.leftLow j = false) (hr : ∀ j, inp.rightLow j = false)
    (hnat : ∀ j, inp.natural j = decide (j < N)) (hfuel : N < fuel)
    (hsel : randomChoice (SDCard.ls_files re (some ".mp3")) ci = Except.ok f) :
    App.run true re ci inp fuel =
      Except.ok (Event.selectTrack f :: Event.playCall f ::
        (loopList inp N 0 ++ exitEvents)) ∧
    (loopList inp N 0).countP isWrite = N := by
  have hloop := appLoop_noPress inp N hl hr hnat fuel 0 (by omega)
  constructor
  · simp only [App.run, if_true, hsel, hloop, Nat.sub_zero]
  · exact loopList_countP_isWrite inp N 0

/-- Witness for C6, realizing scenario B: the device plays for exactly 3
poll cycles with no press; the trace is selection, play, 3 sample/write
iterations, then the full exit sequence ending in deep sleep; exactly 3
brightness writes. -/
theorem session_end_sequence_witness :
    App.run true [mp3a, txtb] 0 inpB 4 =
      Except.ok (Event.selectTrack mp3a :: Event.playCall mp3a ::
        (loopList inpB 3 0 ++ exitEvents)) ∧
    (loopList inpB 3 0).countP isWrite = 3 :=
  session_end_sequence [mp3a, txtb] 0 inpB 4 3 mp3a (fun _ => rfl) (fun _ => rfl)
    (fun _ => rfl) (by omega) rfl

end MrBear
